import Mathlib

/-!
Shallow embedding of the clawdbot-onboarding-wizard generation pipeline
(src/lib/wizard.js and src/lib/setup.js) and proofs about the frozen claims.

Conventions of the embedding:
- JavaScript objects become Lean structures; object fields that may be
  `undefined` become `Option` fields.
- JavaScript association objects whose keys are data (integrations,
  automations, skill entries) become association lists `List (String × α)`,
  preserving insertion order, which is the iteration order of
  `Object.entries` / `Object.keys` for string keys.
- A JavaScript function that can throw a `TypeError` on some input shape is
  embedded with an `Except JsError` result.
- The JavaScript truthiness of `x || d` on strings (where the empty string
  is falsy) is embedded by `jsStrOr` / `jsOptStrOr`.
- The external `yaml.stringify` and `JSON.stringify(x, null, 2)` library
  calls are modelled by one deterministic serializer `Json.render` over a
  `Json` value translated from the exact object literal in the source; the
  concrete surface syntax (YAML vs pretty JSON) is not reproduced, only the
  serialized object, which is all the claims constrain.
- Ambient effects are passed as parameters: the wall clock enters as the
  `created` / `today` strings, the filesystem as an explicit association
  list of path/content pairs.
-/

/-- JavaScript `s1 || s2` for strings: the empty string is falsy. -/
def jsStrOr (s d : String) : String :=
  if s == "" then d else s

/-- JavaScript `x || d` where `x : string | undefined`: both `undefined` and
the empty string fall through to the default. -/
def jsOptStrOr (o : Option String) (d : String) : String :=
  match o with
  | some s => jsStrOr s d
  | none => d

/-- First-match association-list lookup, the embedding of JavaScript
property access `obj[key]` on a data object. -/
def lookupAssoc {α : Type} : List (String × α) → String → Option α
  | [], _ => none
  | (k, v) :: rest, key => if k == key then some v else lookupAssoc rest key

/-- Char-list version of `String.startsWith`. -/
def chStartsWith : List Char → List Char → Bool
  | [], _ => true
  | _ :: _, [] => false
  | p :: ps, c :: cs => p == c && chStartsWith ps cs

/-- Char-list substring containment: `pat` occurs contiguously in the list. -/
def chIncludes (pat : List Char) : List Char → Bool
  | [] => chStartsWith pat []
  | c :: rest => chStartsWith pat (c :: rest) || chIncludes pat rest

/-- Embedding of JavaScript `s.includes(pat)` (substring containment,
case-sensitive). -/
def strIncludes (s pat : String) : Bool :=
  chIncludes pat.data s.data

/-- Concatenation of the chunks of a template literal, in order: a
JavaScript backtick template is exactly the concatenation of its literal
chunks and interpolated expressions. -/
def concatAll (parts : List String) : String :=
  parts.foldr (fun a b => a ++ b) ""

/-- Embedding of `name.replace(/_/g, " ")` from setup.js: every underscore
becomes a space. -/
def replaceUnderscores (s : String) : String :=
  ⟨s.data.map (fun c => if c == '_' then ' ' else c)⟩

/-- JavaScript `\w` word-character class: letters, digits, underscore
(ASCII). -/
def isWordChar (c : Char) : Bool :=
  (c.isAlpha || c.isDigit) || c == '_'

/-- Uppercase every word character standing at a word boundary, the
embedding of `.replace(/\b\w/g, l => l.toUpperCase())`. The boolean argument
records whether the previous character was a word character. -/
def upWordHeads : Bool → List Char → List Char
  | _, [] => []
  | prevW, c :: rest =>
    (if isWordChar c && !prevW then c.toUpper else c) :: upWordHeads (isWordChar c) rest

/-- Embedding of the title-casing applied to automation names in setup.js:
`name.replace(/_/g, " ").replace(/\b\w/g, l => l.toUpperCase())`. -/
def titleCaseWords (s : String) : String :=
  ⟨upWordHeads false (replaceUnderscores s).data⟩

/-! ## Data model (spec §3, shapes read off the source) -/

/-- Per-skill override record used by the mapping form of `skills`
(spec §3 SkillSpec); the renderers read only `description` and `enabled`. -/
structure SkillSpec where
  enabled : Option Bool := none
  description : Option String := none
deriving DecidableEq, Repr

/-- The two shapes of the `skills` field (spec §3): an ordered sequence of
skill names, or a mapping `\x7bentries: \x7bname: SkillSpec\x7d\x7d`. -/
inductive Skills where
  | seq : List String → Skills
  | entries : List (String × SkillSpec) → Skills
deriving DecidableEq, Repr

/-- AutomationSpec (spec §3): schedule and description are present,
priority and includes are optional. -/
structure AutomationSpec where
  schedule : String
  description : String
  priority : Option String := none
  includes : Option (List String) := none
deriving DecidableEq, Repr

/-- Demo scenario record rendered into AGENTS.md. -/
structure DemoScenario where
  name : String
  description : String
  time_saved : String
deriving DecidableEq, Repr

/-- Impact-metrics record rendered into AGENTS.md. -/
structure ImpactMetrics where
  daily_time_saved : String
  weekly_time_saved : String
  monthly_time_saved : String
  primary_benefits : Option (List String) := none
deriving DecidableEq, Repr

/-- Role template (spec §3), as read by the renderers in setup.js. -/
structure Template where
  name : String
  description : String
  automations : List (String × AutomationSpec)
  skills : Skills
  demo_scenarios : Option (List DemoScenario) := none
  impact_metrics : Option ImpactMetrics := none
  workflows : Option (List String) := none
deriving DecidableEq, Repr

/-- Integration entry produced by `configureIntegrations` in wizard.js. -/
structure IntegrationSpec where
  provider : Option String := none
  platforms : Option (List String) := none
  features : List String
deriving DecidableEq, Repr

/-- The `user` part of a Configuration (wizard.js `generateConfiguration`). -/
structure UserInfo where
  type : String
  goals : Option (List String)
  experience : String
deriving DecidableEq, Repr

/-- The `workspace` part of a Configuration (wizard.js
`generateConfiguration`). -/
structure WorkspaceInfo where
  name : String
  description : String
  automations : List (String × AutomationSpec)
  skills : Skills
deriving DecidableEq, Repr

/-- The Configuration value assembled once per run (spec §3, wizard.js
lines 116-133). -/
structure Configuration where
  user : UserInfo
  template : Template
  integrations : List (String × IntegrationSpec)
  workspace : WorkspaceInfo
  created : String
deriving DecidableEq, Repr

/-- The interview answers consumed by the assembler (wizard.js `answers`). -/
structure Answers where
  userType : String
  goals : Option (List String)
  experience : String
  tools : List String
deriving DecidableEq, Repr

/-! ## wizard.js: configureIntegrations and generateConfiguration -/

/-- The `email` integration entry (wizard.js lines 86-91). -/
def emailIntegration : IntegrationSpec :=
  { provider := some "gmail", features := ["automation", "smart_inbox", "scheduling"] }

/-- The `calendar` integration entry (wizard.js lines 93-98). -/
def calendarIntegration : IntegrationSpec :=
  { provider := some "google", features := ["scheduling", "meeting_prep", "availability"] }

/-- The `github` integration entry (wizard.js lines 100-104):
only a feature list, no provider. -/
def githubIntegration : IntegrationSpec :=
  { features := ["pr_reviews", "issue_tracking", "repo_analytics"] }

/-- The `social` integration entry (wizard.js lines 106-111). -/
def socialIntegration : IntegrationSpec :=
  { platforms := some ["linkedin", "twitter"],
    features := ["content_scheduling", "analytics", "engagement"] }

/-- Embedding of `configureIntegrations(selectedTools)` (wizard.js lines
83-114): four independent membership tests on the selected tool list; keys
are inserted in the order email, calendar, github, social; any other tool
identifier contributes nothing. -/
def configureIntegrations (selectedTools : List String) : List (String × IntegrationSpec) :=
  (if selectedTools.contains "gmail" then [("email", emailIntegration)] else []) ++
  (if selectedTools.contains "calendar" then [("calendar", calendarIntegration)] else []) ++
  (if selectedTools.contains "github" then [("github", githubIntegration)] else []) ++
  (if selectedTools.contains "social" then [("social", socialIntegration)] else [])

/-- Embedding of `generateConfiguration(answers, template, integrations)`
(wizard.js lines 116-133). The `created` timestamp
(`new Date().toISOString()` in the source) enters as a parameter. Note that
`template.skills` is copied verbatim into `workspace.skills`: no
normalization of the skills shape happens here or anywhere else. -/
def generateConfiguration (answers : Answers) (template : Template)
    (integrations : List (String × IntegrationSpec)) (created : String) : Configuration :=
  { user := { type := answers.userType, goals := answers.goals,
              experience := answers.experience },
    template := template,
    integrations := integrations,
    workspace := { name := answers.userType ++ "-ai-employee",
                   description := "AI employee setup for " ++ answers.userType,
                   automations := template.automations,
                   skills := template.skills },
    created := created }

/-- The single failure of the assembly stage (spec §4.1 / §7). -/
inductive AssembleError where
  | templateNotFound : AssembleError
deriving DecidableEq, Repr

/-- Modelled from the spec: `loadTemplate` lives in src/lib/templates.js,
which is not among the provided sources (wizard.js only requires it). Per
spec §2 and §4.1 the catalog is a pure lookup `role -> Template` that fails
with `TemplateNotFound` when the key has no catalog entry, with no other
error path. -/
def loadTemplate (catalog : List (String × Template)) (role : String) :
    Except AssembleError Template :=
  match lookupAssoc catalog role with
  | some t => Except.ok t
  | none => Except.error AssembleError.templateNotFound

/-- The assembly stage of the wizard (wizard.js steps 3-5): template lookup,
integration expansion, configuration construction. -/
def assemble (catalog : List (String × Template)) (answers : Answers)
    (created : String) : Except AssembleError Configuration :=
  match loadTemplate catalog answers.userType with
  | Except.ok t =>
      Except.ok (generateConfiguration answers t (configureIntegrations answers.tools) created)
  | Except.error e => Except.error e

/-! ## A small JSON object model for the serialized artifacts

The source builds plain object literals and hands them to the external
serializers `yaml.stringify` and `JSON.stringify(x, null, 2)`. The objects
are translated literally into `Json` values; `Json.render` is one
deterministic executable serialization standing in for both external
library calls (their concrete indentation/quoting conventions are library
behavior the claims never constrain). -/

inductive Json where
  | str : String → Json
  | jbool : Bool → Json
  | arr : List Json → Json
  | obj : List (String × Json) → Json
deriving Repr

/-- Minimal string escaping for the serializer. -/
def escapeJson (s : String) : String :=
  String.join (s.data.map (fun c =>
    if c == '"' then "\\\"" else if c == '\\' then "\\\\"
    else if c == '\n' then "\\n" else String.singleton c))

mutual

/-- Deterministic serialization of a `Json` value (model of the external
yaml / JSON stringify calls). -/
def Json.render : Json → String
  | Json.str s => "\"" ++ escapeJson s ++ "\""
  | Json.jbool b => if b then "true" else "false"
  | Json.arr l => "[" ++ Json.renderArr l ++ "]"
  | Json.obj l => "\x7b" ++ Json.renderObj l ++ "\x7d"

/-- Serialization of an array body. -/
def Json.renderArr : List Json → String
  | [] => ""
  | j :: rest => Json.render j ++ (if rest.isEmpty then "" else ",") ++ Json.renderArr rest

/-- Serialization of an object body. -/
def Json.renderObj : List (String × Json) → String
  | [] => ""
  | (k, v) :: rest =>
    "\"" ++ escapeJson k ++ "\":" ++ Json.render v ++
      (if rest.isEmpty then "" else ",") ++ Json.renderObj rest

end

/-- Append an optional object field; `JSON.stringify` drops fields holding
`undefined`, so an absent optional field simply does not appear. -/
def optField (key : String) (o : Option Json) : List (String × Json) :=
  match o with
  | some j => [(key, j)]
  | none => []

/-- JSON encoding of an AutomationSpec as it sits in the template object. -/
def automationJson (a : AutomationSpec) : Json :=
  Json.obj ([("schedule", Json.str a.schedule), ("description", Json.str a.description)] ++
    optField "priority" (a.priority.map Json.str) ++
    optField "includes" (a.includes.map (fun l => Json.arr (l.map Json.str))))

/-- JSON encoding of an IntegrationSpec (field order as in the literals of
wizard.js: provider / platforms first where present, then features). -/
def integrationJson (i : IntegrationSpec) : Json :=
  Json.obj (optField "provider" (i.provider.map Json.str) ++
    optField "platforms" (i.platforms.map (fun l => Json.arr (l.map Json.str))) ++
    [("features", Json.arr (i.features.map Json.str))])

/-- JSON encoding of a SkillSpec entry. -/
def skillSpecJson (s : SkillSpec) : Json :=
  Json.obj (optField "enabled" (s.enabled.map Json.jbool) ++
    optField "description" (s.description.map Json.str))

/-- JSON encoding of the skills field in either shape. -/
def skillsJson : Skills → Json
  | Skills.seq l => Json.arr (l.map Json.str)
  | Skills.entries e =>
    Json.obj [("entries", Json.obj (e.map (fun p => (p.1, skillSpecJson p.2))))]

/-- JSON encoding of a DemoScenario. -/
def demoScenarioJson (d : DemoScenario) : Json :=
  Json.obj [("name", Json.str d.name), ("description", Json.str d.description),
    ("time_saved", Json.str d.time_saved)]

/-- JSON encoding of the ImpactMetrics record. -/
def impactMetricsJson (m : ImpactMetrics) : Json :=
  Json.obj ([("daily_time_saved", Json.str m.daily_time_saved),
    ("weekly_time_saved", Json.str m.weekly_time_saved),
    ("monthly_time_saved", Json.str m.monthly_time_saved)] ++
    optField "primary_benefits" (m.primary_benefits.map (fun l => Json.arr (l.map Json.str))))

/-- JSON encoding of a whole Template value (serialized verbatim into the
example-template artifact by `generateAutomationTemplates`). -/
def templateJson (t : Template) : Json :=
  Json.obj ([("name", Json.str t.name), ("description", Json.str t.description),
    ("automations", Json.obj (t.automations.map (fun p => (p.1, automationJson p.2)))),
    ("skills", skillsJson t.skills)] ++
    optField "demo_scenarios" (t.demo_scenarios.map (fun l => Json.arr (l.map demoScenarioJson))) ++
    optField "impact_metrics" (t.impact_metrics.map impactMetricsJson) ++
    optField "workflows" (t.workflows.map (fun l => Json.arr (l.map Json.str))))

/-! ## Documents and JavaScript dynamic errors -/

/-- A rendered artifact: path relative to the workspace root, plus its
textual content (spec §3 Document). -/
structure Document where
  path : String
  content : String
deriving DecidableEq, Repr

/-- A JavaScript dynamic failure (TypeError) raised by calling an array
method on a non-array value. -/
inductive JsError where
  | typeError : String → JsError
deriving DecidableEq, Repr

/-- Model of `new Date(iso).toLocaleDateString()` (and of
`new Date().toLocaleDateString()` once the clock is a parameter): an
environment-dependent deterministic formatting function whose output the
claims never constrain; modelled as the identity on the date string. -/
def localeDateString (iso : String) : String := iso

/-! ## setup.js renderers

Each `generateX(config, workspacePath)` function of setup.js computes one
content string (or serialized object) and writes it to one path; the
embedding gives the pure `Document` each one writes. -/

/-- Embedding of `generateClawdbotConfig` (setup.js lines 39-61). The
source maps over `config.workspace.skills` with `.map(skill => ...)`; when
the skills field is in the mapping form `\x7bentries: ...\x7d` that value is a
plain object without a `.map` method, so the call raises a TypeError. -/
def generateClawdbotConfig (c : Configuration) : Except JsError Document :=
  match c.workspace.skills with
  | Skills.entries _ =>
    Except.error (JsError.typeError "config.workspace.skills.map is not a function")
  | Skills.seq names =>
    Except.ok
      { path := "config/clawdbot.yaml",
        content := Json.render (Json.obj [
          ("workspace", Json.obj [
            ("name", Json.str c.workspace.name),
            ("description", Json.str c.workspace.description),
            ("created", Json.str c.created),
            ("user_type", Json.str c.user.type)]),
          ("skills", Json.arr (names.map (fun n => Json.obj [
            ("name", Json.str n),
            ("enabled", Json.jbool true),
            ("auto_install", Json.jbool true)]))),
          ("integrations", Json.obj (c.integrations.map (fun p => (p.1, integrationJson p.2)))),
          ("automations", Json.obj (c.template.automations.map (fun p => (p.1, automationJson p.2)))),
          ("workflows", Json.arr ((c.template.workflows.getD []).map Json.str))]) }

/-- The morning-brief automation object (setup.js lines 67-87). The
schedule falls back to the fixed default through JavaScript `||` when the
template has no `morning_brief` automation (or its schedule is empty), and
the data sources come from that automation through `?.includes || []`. -/
def morningBriefAutomationJson (c : Configuration) : Json :=
  Json.obj [
    ("name", Json.str "Morning Intelligence Brief"),
    ("schedule", Json.str (jsOptStrOr
      ((lookupAssoc c.template.automations "morning_brief").map (fun a => a.schedule))
      "8:00 AM daily")),
    ("description", Json.str "Daily briefing with relevant updates and priorities"),
    ("actions", Json.arr [
      Json.obj [("type", Json.str "collect_data"),
        ("sources", Json.arr ((((lookupAssoc c.template.automations "morning_brief").bind
          (fun a => a.includes)).getD []).map Json.str))],
      Json.obj [("type", Json.str "generate_summary"),
        ("format", Json.str "markdown"),
        ("output", Json.str "morning-brief.md")],
      Json.obj [("type", Json.str "notify"),
        ("method", Json.str "console"),
        ("message", Json.str "Your morning brief is ready!")]])]

/-- The founder-only investor-update automation object (setup.js lines
103-118). -/
def investorUpdateJson : Json :=
  Json.obj [
    ("name", Json.str "Weekly Investor Update Prep"),
    ("schedule", Json.str "Weekly Friday 4:00 PM"),
    ("description", Json.str "Prepare weekly investor update with key metrics and highlights"),
    ("actions", Json.arr [
      Json.obj [("type", Json.str "collect_metrics"),
        ("sources", Json.arr [Json.str "revenue", Json.str "user_growth", Json.str "team_updates"])],
      Json.obj [("type", Json.str "generate_report"),
        ("template", Json.str "investor_update"),
        ("output", Json.str "weekly-investor-update.md")]])]

/-- The engineer-only code-review automation object (setup.js lines
127-142). -/
def codeReviewJson : Json :=
  Json.obj [
    ("name", Json.str "Automated Code Review Assistant"),
    ("schedule", Json.str "On PR creation"),
    ("description", Json.str "Assist with code reviews and quality checks"),
    ("actions", Json.arr [
      Json.obj [("type", Json.str "analyze_code"),
        ("checks", Json.arr [Json.str "security", Json.str "performance",
          Json.str "style", Json.str "tests"])],
      Json.obj [("type", Json.str "generate_feedback"),
        ("format", Json.str "github_comment"),
        ("output", Json.str "pr-review-comments.md")]])]

/-- Embedding of `generateAutomations` (setup.js lines 63-100): always the
morning-brief automation file, then exactly one role-specific file for the
founder and engineer user types, nothing for any other type. -/
def generateAutomationsDocs (c : Configuration) : List Document :=
  [{ path := "automations/morning-brief.yaml",
     content := Json.render (morningBriefAutomationJson c) }] ++
  (if c.user.type == "founder" then
    [{ path := "automations/investor-update.yaml", content := Json.render investorUpdateJson }]
  else if c.user.type == "engineer" then
    [{ path := "automations/code-review.yaml", content := Json.render codeReviewJson }]
  else [])

/-- One automation block of the README (setup.js line 172): raw name,
schedule, and the includes joined by a comma, with `Custom workflow`
substituted through `||` when `includes` is `undefined` (or joins to the
empty string). -/
def readmeAutomationBlock (p : String × AutomationSpec) : String :=
  "### " ++ p.1 ++ "\n- **Schedule:** " ++ p.2.schedule ++ "\n- **Includes:** " ++
    jsOptStrOr (p.2.includes.map (String.intercalate ", ")) "Custom workflow" ++ "\n"

/-- The goals list of the README (setup.js line 182):
`config.user.goals?.map(goal => - goal).join(\n) || "- General automation"`. -/
def readmeGoalsList (goals : Option (List String)) : String :=
  jsOptStrOr (goals.map (fun gs => String.intercalate "\n" (gs.map (fun g => "- " ++ g))))
    "- General automation"

/-- The README.md content (setup.js lines 151-193), given the sequence-form
skill names (the `.join` that produced them is in `generateDocumentation`). -/
def readmeContent (c : Configuration) (skillNames : List String) : String :=
  concatAll [
    "# ", c.workspace.name,
    "\n\nYour AI Employee workspace, configured for ", c.user.type,
    " workflows.\n\n## 🎯 Setup Summary\n\n- **User Type:** ", c.user.type,
    "\n- **Created:** ", localeDateString c.created,
    "\n- **Skills Installed:** ", String.intercalate ", " skillNames,
    "\n- **Integrations:** ", String.intercalate ", " (c.integrations.map Prod.fst),
    "\n\n## 🚀 Getting Started\n\n1. **Start Clawdbot:** `clawdbot gateway start`\n",
    "2. **Check your morning brief:** `cat morning-brief.md`\n",
    "3. **View automations:** `ls automations/`\n",
    "4. **Customize workflows:** Edit files in `workflows/`\n\n## 📋 Automations\n\n",
    String.intercalate "\n" (c.template.automations.map readmeAutomationBlock),
    "\n\n## 🔧 Configuration\n\nAll configuration files are in the `config/` directory. ",
    "Main configuration is in `config/clawdbot.yaml`.\n\n## 📊 Goals Tracking\n\n",
    "Your selected goals:\n", readmeGoalsList c.user.goals,
    "\n\n## 📞 Support\n\n- Documentation: [docs/](./docs/)\n- Logs: [logs/](./logs/)\n",
    "- Community: [Discord](https://discord.gg/clawdbot)\n\n---\n\n",
    "*Generated by Clawdbot Onboarding Wizard v1.0*\n"]

/-- Embedding of `generateDocumentation` (setup.js lines 150-196). Line 159
calls `config.workspace.skills.join(", ")`; a mapping-form skills value has
no `.join` method, so the renderer raises a TypeError on that shape. -/
def generateDocumentation (c : Configuration) : Except JsError Document :=
  match c.workspace.skills with
  | Skills.entries _ =>
    Except.error (JsError.typeError "config.workspace.skills.join is not a function")
  | Skills.seq names =>
    Except.ok { path := "README.md", content := readmeContent c names }

/-- The metrics section of the morning brief (setup.js lines 215-226): a
nested ternary on the user type with distinct placeholder bullet sets for
founder, engineer and everyone else. -/
def morningBriefMetricsSection (userType : String) : String :=
  if userType == "founder" then
    "\n- Revenue tracking: *Setup pending*\n- User growth: *Setup pending*\n- Team updates: *Setup pending*\n"
  else if userType == "engineer" then
    "\n- PR reviews pending: *Setup pending*\n- GitHub notifications: *Setup pending*\n- CI/CD status: *Setup pending*\n"
  else
    "\n- Daily goals: *Setup pending*\n- Important updates: *Setup pending*\n"

/-- The priorities list of the morning brief (setup.js line 207), with the
placeholder substituted through `||` when goals are absent (or join to the
empty string). -/
def morningBriefGoalsList (goals : Option (List String)) : String :=
  jsOptStrOr (goals.map (fun gs => String.intercalate "\n" (gs.map (fun g => "- Work on: " ++ g))))
    "- General productivity tasks"

/-- The morning-brief.md content (setup.js lines 198-246); `today` is the
render-time `new Date().toLocaleDateString()` passed in explicitly. -/
def morningBriefContent (c : Configuration) (today : String) : String :=
  concatAll [
    "# Morning Brief - ", today,
    "\n\n*Your AI employee has prepared this briefing*\n\n## 🎯 Today\x27s Priorities\n\n",
    morningBriefGoalsList c.user.goals,
    "\n\n## 📅 Schedule Overview\n\n*Calendar integration will populate this section*\n\n",
    "## 📊 Key Metrics\n\n", morningBriefMetricsSection c.user.type,
    "\n\n## 🔔 Notifications\n\n- ✅ AI employee workspace configured\n- ⏳ Integrations pending: ",
    String.intercalate ", " (c.integrations.map Prod.fst),
    "\n- 📋 Automations ready: ", toString c.template.automations.length,
    " workflows\n\n## 💡 Suggestions\n\n1. Review and customize your automations in `automations/`\n",
    "2. Set up integrations for: ", String.intercalate ", " (c.integrations.map Prod.fst),
    "\n3. Check back tomorrow for your first real brief!\n\n---\n\n",
    "*This briefing will improve as your integrations are configured*\n"]

/-- Embedding of `generateMorningBrief` (setup.js lines 198-246). -/
def generateMorningBriefDoc (c : Configuration) (today : String) : Document :=
  { path := "morning-brief.md", content := morningBriefContent c today }

/-- One automation block of AGENTS.md (setup.js lines 267-272):
title-cased name, schedule, priority defaulted to `medium`, description
defaulted to `Automated workflow`, then one indented line per `includes`
entry (nothing when `includes` is absent). -/
def agentsAutomationBlock (p : String × AutomationSpec) : String :=
  "### " ++ titleCaseWords p.1 ++
  "\n- **Schedule:** " ++ p.2.schedule ++
  "\n- **Priority:** " ++ jsOptStrOr p.2.priority "medium" ++
  "\n- **Description:** " ++ jsStrOr p.2.description "Automated workflow" ++ "\n" ++
  (match p.2.includes with
   | some items => String.intercalate "\n" (items.map (fun item => "  - " ++ item))
   | none => "") ++ "\n"

/-- The automations section of AGENTS.md (setup.js line 266). The guard
`template.automations ? ... : ""` always takes the first branch, because a
JavaScript object (even an empty one) is truthy; the embedding keeps only
that branch. -/
def agentsAutomationsSection (t : Template) : String :=
  String.intercalate "\n" (t.automations.map agentsAutomationBlock)

/-- The demo-scenarios section of AGENTS.md (setup.js lines 276-280):
rendered blocks when `demo_scenarios` is present, the empty string
otherwise. -/
def agentsDemoSection (t : Template) : String :=
  match t.demo_scenarios with
  | some scenarios =>
    String.intercalate "\n" (scenarios.map (fun s =>
      "### " ++ s.name ++ "\n" ++ s.description ++ "\n**Time saved:** " ++ s.time_saved ++ "\n"))
  | none => ""

/-- The impact-metrics section of AGENTS.md (setup.js lines 284-292):
rendered when `impact_metrics` is present (note the two trailing spaces
after the weekly figure in the source), the empty string otherwise. -/
def agentsImpactSection (t : Template) : String :=
  match t.impact_metrics with
  | some m =>
    "\n**Expected Time Savings:**\n- Daily: " ++ m.daily_time_saved ++
    "\n- Weekly: " ++ m.weekly_time_saved ++ "  \n- Monthly: " ++ m.monthly_time_saved ++
    "\n\n**Primary Benefits:**\n" ++
    (match m.primary_benefits with
     | some benefits => String.intercalate "\n" (benefits.map (fun b => "- " ++ b))
     | none => "") ++ "\n"
  | none => ""

/-- The skills section of AGENTS.md (setup.js line 297). The source tests
`template.skills.entries ? A : B`. For the mapping form, `.entries` is the
entries object (truthy) and branch A lists its keys with a defaulted
description. For the sequence form, `.entries` resolves through the
prototype chain to the built-in method `Array.prototype.entries`, which is
a function and therefore ALSO truthy, so branch A is taken there too:
`Object.keys` of a built-in function has no own enumerable properties and
yields the empty list, so the section renders empty and branch B
(`template.skills.map(...)`) is unreachable. -/
def agentsSkillsSection : Skills → String
  | Skills.seq _ => ""
  | Skills.entries e =>
    String.intercalate "\n" (e.map (fun p =>
      "- **" ++ p.1 ++ "**: " ++ jsOptStrOr p.2.description "Official OpenClaw skill"))

/-- The AGENTS.md content (setup.js lines 258-318). -/
def agentsContent (c : Configuration) : String :=
  concatAll [
    "# AGENTS.md - ", c.template.name, " Operating Instructions\n\n",
    c.template.description,
    "\n\n## 🎯 Your Role: ", c.template.name,
    "\n\nYou are an AI assistant specialized for ", c.user.type,
    " workflows. Your primary focus areas:\n\n",
    agentsAutomationsSection c.template,
    "\n\n## 💡 Demo Scenarios\n\n", agentsDemoSection c.template,
    "\n\n## ⚡ Impact Metrics\n\n", agentsImpactSection c.template,
    "\n\n## 🛠️ Available Skills\n\nYou have access to these OpenClaw skills:\n",
    agentsSkillsSection c.template.skills,
    "\n\n## 📋 Daily Operating Principles\n\n",
    "1. **Proactive Monitoring**: Check metrics and systems before issues arise\n",
    "2. **Data-Driven Insights**: Always provide context and trends, not just numbers\n",
    "3. **Actionable Recommendations**: Every brief should include specific next steps\n",
    "4. **Time-Conscious**: Prioritize high-impact activities that save the most time\n",
    "5. **Communication**: Keep updates clear, concise, and decision-focused\n\n",
    "## 🚨 Alert Thresholds\n\nBe proactive about flagging:\n",
    "- Metrics trending negative >2 days\n",
    "- Team blockers that could impact deadlines\n",
    "- Competitive moves requiring immediate response\n",
    "- Budget/runway concerns requiring founder attention\n\n---\n\n",
    "*This file is loaded every OpenClaw session. Update it as your needs evolve.*\n"]

/-- Embedding of `generateAgentsFile` (setup.js lines 254-321). -/
def generateAgentsDoc (c : Configuration) : Document :=
  { path := "AGENTS.md", content := agentsContent c }

/-! ## HEARTBEAT.md: the schedule-bucketed sections (setup.js lines 323-395)

Each of the three sections maps over ALL of `template.automations` and
keeps the block exactly when the schedule string passes that section's own
substring test (`filter(Boolean)` then drops the entries the callback
skipped). The three tests are independent of each other: nothing removes
an automation from a later section because an earlier one matched. -/

/-- The automations surviving the daily filter: setup.js line 334,
`automation.schedule.includes("daily")` — lowercase only. -/
def heartbeatDailyEntries (t : Template) : List (String × AutomationSpec) :=
  t.automations.filter (fun p => strIncludes p.2.schedule "daily")

/-- The automations surviving the weekly filter: setup.js line 348,
`includes("Weekly") || includes("weekly")`. -/
def heartbeatWeeklyEntries (t : Template) : List (String × AutomationSpec) :=
  t.automations.filter (fun p =>
    strIncludes p.2.schedule "Weekly" || strIncludes p.2.schedule "weekly")

/-- The automations surviving the monthly filter: setup.js line 362,
`includes("Monthly") || includes("monthly")`. -/
def heartbeatMonthlyEntries (t : Template) : List (String × AutomationSpec) :=
  t.automations.filter (fun p =>
    strIncludes p.2.schedule "Monthly" || strIncludes p.2.schedule "monthly")

/-- One daily block (setup.js lines 335-341). -/
def heartbeatDailyBlock (p : String × AutomationSpec) : String :=
  "### " ++ titleCaseWords p.1 ++
  "\n- **When:** " ++ p.2.schedule ++
  "\n- **Priority:** " ++ jsOptStrOr p.2.priority "medium" ++
  "\n- **What:** " ++ p.2.description ++
  "\n- **Actions:**\n" ++
  (match p.2.includes with
   | some items =>
     String.intercalate "\n" (items.map (fun item => "  - Check and report on: " ++ item))
   | none => "  - Execute automation workflow") ++ "\n"

/-- One weekly block (setup.js lines 349-355; the priority line carries two
trailing spaces in the source). -/
def heartbeatWeeklyBlock (p : String × AutomationSpec) : String :=
  "### " ++ titleCaseWords p.1 ++
  "\n- **When:** " ++ p.2.schedule ++
  "\n- **Priority:** " ++ jsOptStrOr p.2.priority "medium" ++
  "  \n- **What:** " ++ p.2.description ++
  "\n- **Actions:**\n" ++
  (match p.2.includes with
   | some items =>
     String.intercalate "\n" (items.map (fun item => "  - Analyze and summarize: " ++ item))
   | none => "  - Execute weekly workflow") ++ "\n"

/-- One monthly block (setup.js lines 363-369). -/
def heartbeatMonthlyBlock (p : String × AutomationSpec) : String :=
  "### " ++ titleCaseWords p.1 ++
  "\n- **When:** " ++ p.2.schedule ++
  "\n- **Priority:** " ++ jsOptStrOr p.2.priority "medium" ++
  "\n- **What:** " ++ p.2.description ++
  "\n- **Actions:**\n" ++
  (match p.2.includes with
   | some items =>
     String.intercalate "\n" (items.map (fun item => "  - Deep analysis of: " ++ item))
   | none => "  - Execute periodic workflow") ++ "\n"

/-- The rendered daily section body. -/
def heartbeatDailySection (t : Template) : String :=
  String.intercalate "\n" ((heartbeatDailyEntries t).map heartbeatDailyBlock)

/-- The rendered weekly section body. -/
def heartbeatWeeklySection (t : Template) : String :=
  String.intercalate "\n" ((heartbeatWeeklyEntries t).map heartbeatWeeklyBlock)

/-- The rendered monthly section body. -/
def heartbeatMonthlySection (t : Template) : String :=
  String.intercalate "\n" ((heartbeatMonthlyEntries t).map heartbeatMonthlyBlock)

/-- The HEARTBEAT.md content (setup.js lines 327-392; the escalation line
carries two trailing spaces in the source). -/
def heartbeatContent (c : Configuration) : String :=
  concatAll [
    "# HEARTBEAT.md - ", c.template.name, " Automation\n\nAutomated periodic tasks for ",
    c.user.type, " workflows.\n\n## 🔄 Daily Automation Tasks\n\n",
    heartbeatDailySection c.template,
    "\n\n## 📊 Weekly Tasks\n\n", heartbeatWeeklySection c.template,
    "\n\n## 📅 Monthly/Periodic Tasks\n\n", heartbeatMonthlySection c.template,
    "\n\n## ⚡ Proactive Monitoring\n\nBetween scheduled tasks, monitor for:\n",
    "- Critical metrics falling outside normal ranges\n",
    "- Team blockers that need immediate escalation  \n",
    "- Competitive intelligence requiring rapid response\n",
    "- Opportunities for strategic advantage\n\n## 🎯 Success Metrics\n\n",
    "Track automation effectiveness:\n- Time saved per task category\n",
    "- Issues caught proactively vs. reactively\n- Decision speed improvement\n- Overall ",
    c.user.type, " productivity gains\n\n---\n\n",
    "*Keep this file focused and actionable. OpenClaw reads this for automated tasks.*\n"]

/-- Embedding of `generateHeartbeatFile` (setup.js lines 323-395). -/
def generateHeartbeatDoc (c : Configuration) : Document :=
  { path := "HEARTBEAT.md", content := heartbeatContent c }

/-- The skill names serialized as `skills_needed` by
`generateAutomationTemplates` (setup.js line 421):
`template.skills.entries ? Object.keys(template.skills.entries) : template.skills`.
As in `agentsSkillsSection`, the test is truthy for BOTH shapes (for the
sequence form `.entries` is the built-in `Array.prototype.entries` method),
so the sequence form yields `Object.keys` of a function: the empty list. -/
def skillsNeeded : Skills → List String
  | Skills.seq _ => []
  | Skills.entries e => e.map Prod.fst

/-- The example-template object (setup.js lines 404-422), the whole
template serialized under the `template` key. -/
def automationExampleJson (c : Configuration) : Json :=
  Json.obj [
    ("name", Json.str (c.user.type ++ "_automation_example")),
    ("description", Json.str ("Example automation workflow for " ++ c.user.type)),
    ("template", templateJson c.template),
    ("usage_instructions", Json.str ("\n# How to Use This Template\n\n" ++
      "1. Copy this template for new automations\n" ++
      "2. Customize the triggers and actions for your needs\n" ++
      "3. Test with small data sets first\n" ++
      "4. Scale up once working properly\n\n# OpenClaw Integration\n\n" ++
      "This template is designed to work with OpenClaw\x27s automation system.\n" ++
      "Configure skills in ~/.openclaw/openclaw.json using the provided configuration.\n")),
    ("skills_needed", Json.arr ((skillsNeeded c.template.skills).map Json.str))]

/-- Embedding of `generateAutomationTemplates` (setup.js lines 397-428). -/
def generateAutomationTemplateDoc (c : Configuration) : Document :=
  { path := "templates/" ++ c.user.type ++ "-automation-template.json",
    content := Json.render (automationExampleJson c) }

/-! ## The pipeline entry point and the filesystem model -/

/-- The documents written by `generateSetup` (setup.js lines 5-22), in call
order. `generateOpenClawWorkspace` only ensures the root directory exists
and writes no file; `generateClawdbotConfig`, `generateAutomations`,
`generateDocumentation` and `createWorkspaceStructure` are defined in
setup.js but are NOT called from `generateSetup`, so their outputs do not
appear here. -/
def generateSetupDocs (c : Configuration) (today : String) : List Document :=
  [generateAgentsDoc c,
   generateHeartbeatDoc c,
   generateAutomationTemplateDoc c,
   generateMorningBriefDoc c today]

/-- The filesystem as path/content pairs; the head entry for a path is the
current content (spec §4.4 WorkspaceWriter state). -/
def FileSystem : Type := List (String × String)

/-- Reading a path: the most recent write wins. -/
def readFileFrom : FileSystem → String → Option String
  | [], _ => none
  | (q, content) :: rest, p => if q == p then some content else readFileFrom rest p

/-- Unconditionally overwriting writes of a document list, in order
(spec §4.4: write each document to its path, overwriting). -/
def runWrites (docs : List Document) (fs : FileSystem) : FileSystem :=
  match docs with
  | [] => fs
  | d :: rest => runWrites rest ((d.path, d.content) :: fs)

/-- The content the last write of a document list leaves at a path, if the
list writes it at all. -/
def findLastWrite : List Document → String → Option String
  | [], _ => none
  | d :: rest, p =>
    match findLastWrite rest p with
    | some content => some content
    | none => if d.path == p then some d.content else none

/-! ## The schedule classifier and sample data -/

/-- The four schedule buckets (spec §4.2). -/
inductive ScheduleBucket where
  | daily : ScheduleBucket
  | weekly : ScheduleBucket
  | monthly : ScheduleBucket
  | other : ScheduleBucket
deriving DecidableEq, Repr

/-- The schedule classifier (spec §4.2), read off the three section guards
of `generateHeartbeatFile` taken in section order (daily, then weekly, then
monthly): a case-sensitive substring test for the lowercase token `daily`,
then a both-cases test for weekly, then a both-cases test for monthly. -/
def classify (s : String) : ScheduleBucket :=
  if strIncludes s "daily" then ScheduleBucket.daily
  else if strIncludes s "Weekly" || strIncludes s "weekly" then ScheduleBucket.weekly
  else if strIncludes s "Monthly" || strIncludes s "monthly" then ScheduleBucket.monthly
  else ScheduleBucket.other

/-- Field access on a serialized object value. -/
def jsonObjGet : Json → String → Option Json
  | Json.obj l, k => lookupAssoc l k
  | _, _ => none

/-- Sample founder template used by concrete witnesses. -/
def founderTemplate : Template :=
  { name := "Founder Mode", description := "AI chief of staff for startup founders",
    automations := [
      ("morning_brief", { schedule := "8:00 AM daily", description := "Daily founder briefing",
                          priority := some "high", includes := some ["revenue", "calendar"] }),
      ("investor_update", { schedule := "Weekly Friday 4:00 PM",
                            description := "Investor update prep" })],
    skills := Skills.seq ["email", "calendar"] }

/-- Sample founder configuration. -/
def founderConfig : Configuration :=
  generateConfiguration
    { userType := "founder", goals := some ["Grow revenue"], experience := "intermediate",
      tools := ["gmail", "github"] }
    founderTemplate (configureIntegrations ["gmail", "github"]) "2025-01-01T00:00:00.000Z"

/-- Sample engineer configuration (mapping-form skills). -/
def engineerConfig : Configuration :=
  generateConfiguration
    { userType := "engineer", goals := none, experience := "advanced", tools := ["github"] }
    { name := "Engineer Mode", description := "AI pair for engineers",
      automations := [("code_review", { schedule := "On PR creation",
                                        description := "Review assistance" })],
      skills := Skills.entries [("github", { enabled := some true,
                                             description := some "GitHub integration" })] }
    (configureIntegrations ["github"]) "2025-01-01T00:00:00.000Z"

/-- Sample configuration of an unrecognized user type. -/
def analystConfig : Configuration :=
  generateConfiguration
    { userType := "analyst", goals := none, experience := "beginner", tools := [] }
    { name := "Analyst Mode", description := "AI analyst",
      automations := [("monthly_report", { schedule := "Monthly Report",
                                           description := "Deep dive" })],
      skills := Skills.seq ["data"] }
    [] "2025-01-01T00:00:00.000Z"

/-- Sample configuration with mapping-form skills and all three optional
fields (goals, demo_scenarios, impact_metrics) absent. -/
def mapSkillsConfig : Configuration :=
  generateConfiguration
    { userType := "writer", goals := none, experience := "beginner", tools := [] }
    { name := "Writer Mode", description := "AI writing partner", automations := [],
      skills := Skills.entries [("email", {}), ("calendar", {})] }
    [] "2025-01-01T00:00:00.000Z"

/-- Sample configuration with sequence-form skills naming the same skills
as `mapSkillsConfig`, and the optional fields absent. -/
def seqSkillsConfig : Configuration :=
  generateConfiguration
    { userType := "writer", goals := none, experience := "beginner", tools := [] }
    { name := "Writer Mode", description := "AI writing partner", automations := [],
      skills := Skills.seq ["email", "calendar"] }
    [] "2025-01-01T00:00:00.000Z"

/-- Sample answers of the writer user type with no goals and no tools. -/
def writerAnswers : Answers :=
  { userType := "writer", goals := none, experience := "beginner", tools := [] }

/-- Sample answers of the founder user type with no goals and no tools. -/
def plainFounderAnswers : Answers :=
  { userType := "founder", goals := none, experience := "beginner", tools := [] }

/-- An automation whose schedule contains both the daily and the weekly
token. -/
def bothTokensSpec : AutomationSpec :=
  { schedule := "daily and weekly standup", description := "Team sync" }

/-- A template holding only `bothTokensSpec`. -/
def bothTokensTemplate : Template :=
  { name := "Ops Mode", description := "Operations assistant",
    automations := [("standup", bothTokensSpec)], skills := Skills.seq [] }

/-- An automation whose schedule matches none of the three tokens. -/
def otherBucketSpec : AutomationSpec :=
  { schedule := "On PR creation", description := "Review assistance" }

/-- A template holding only `otherBucketSpec`. -/
def otherBucketTemplate : Template :=
  { name := "Engineer Mode", description := "AI pair for engineers",
    automations := [("code_review", otherBucketSpec)], skills := Skills.seq [] }

/-! ## Helper lemmas -/

theorem chStartsWith_refl (p : List Char) : chStartsWith p p = true := by
  induction p with
  | nil => rfl
  | cons c cs ih => simp [chStartsWith, ih]

theorem chStartsWith_extend (p l b : List Char) (h : chStartsWith p l = true) :
    chStartsWith p (l ++ b) = true := by
  induction p generalizing l with
  | nil => rfl
  | cons c cs ih =>
    cases l with
    | nil => exact absurd h (by simp [chStartsWith])
    | cons d ds =>
      simp only [chStartsWith, Bool.and_eq_true] at h
      simp only [List.cons_append, chStartsWith, Bool.and_eq_true]
      exact ⟨h.1, ih ds h.2⟩

theorem chIncludes_of_startsWith (p l : List Char) (h : chStartsWith p l = true) :
    chIncludes p l = true := by
  cases l with
  | nil => exact h
  | cons c cs => simp [chIncludes, h]

theorem chIncludes_extend (p l b : List Char) (h : chIncludes p l = true) :
    chIncludes p (l ++ b) = true := by
  induction l with
  | nil =>
    exact chIncludes_of_startsWith p b (by
      have hb := chStartsWith_extend p [] b h
      simpa using hb)
  | cons c cs ih =>
    simp only [chIncludes, Bool.or_eq_true] at h
    rcases h with h | h
    · simp only [List.cons_append, chIncludes, Bool.or_eq_true]
      exact Or.inl (by
        have := chStartsWith_extend p (c :: cs) b h
        simpa using this)
    · simp only [List.cons_append, chIncludes, Bool.or_eq_true]
      exact Or.inr (ih h)

theorem chIncludes_prepend (p a l : List Char) (h : chIncludes p l = true) :
    chIncludes p (a ++ l) = true := by
  induction a with
  | nil => exact h
  | cons c cs ih => simp [chIncludes, ih]

/-- Substring containment survives prepending on the left. -/
theorem strIncludes_prepend (a l pat : String) (h : strIncludes l pat = true) :
    strIncludes (a ++ l) pat = true := by
  unfold strIncludes at h ⊢
  rw [String.data_append]
  exact chIncludes_prepend pat.data a.data l.data h

/-- A string starts with itself as a substring of any right extension. -/
theorem strIncludes_self_prepend (pat b : String) : strIncludes (pat ++ b) pat = true := by
  unfold strIncludes
  rw [String.data_append]
  exact chIncludes_of_startsWith pat.data (pat.data ++ b.data)
    (chStartsWith_extend pat.data pat.data b.data (chStartsWith_refl pat.data))

/-- Every chunk of a chunk-list concatenation occurs in the result as a
substring. -/
theorem strIncludes_concat_of_mem (parts : List String) (pat : String) (h : pat ∈ parts) :
    strIncludes (concatAll parts) pat = true := by
  induction parts with
  | nil => cases h
  | cons p rest ih =>
    rcases List.mem_cons.mp h with he | hm
    · rw [he]
      exact strIncludes_self_prepend p (concatAll rest)
    · exact strIncludes_prepend p (concatAll rest) pat (ih hm)

/-- Reading after a batch of overwriting writes: the last write to the path
wins, and paths the batch never writes keep their previous content. -/
theorem readFileFrom_runWrites (ds : List Document) (fs : FileSystem) (p : String) :
    readFileFrom (runWrites ds fs) p =
      match findLastWrite ds p with
      | some content => some content
      | none => readFileFrom fs p := by
  induction ds generalizing fs with
  | nil => rfl
  | cons d rest ih =>
    show readFileFrom (runWrites rest ((d.path, d.content) :: fs)) p = _
    rw [ih]
    cases hf : findLastWrite rest p with
    | some content => simp [findLastWrite, hf]
    | none =>
      simp only [findLastWrite, hf]
      cases hd : d.path == p <;> simp [readFileFrom, hd]

/-! ## Claim theorems -/

/-- C1 (counterexample): at a concrete founder Configuration, the document
set produced by the `generateSetup` entry point contains neither README.md
nor config/clawdbot.yaml nor automations/morning-brief.yaml, refuting the
claim that the entry point writes them. -/
theorem C1_counterexample :
    ¬ ("README.md" ∈ (generateSetupDocs founderConfig "1/1/2025").map Document.path) ∧
    ¬ ("config/clawdbot.yaml" ∈ (generateSetupDocs founderConfig "1/1/2025").map Document.path) ∧
    ¬ ("automations/morning-brief.yaml" ∈
        (generateSetupDocs founderConfig "1/1/2025").map Document.path) := by
  decide

/-- C1 (amended): for every Configuration, `generateSetup` writes exactly
AGENTS.md, HEARTBEAT.md, templates/(user type)-automation-template.json and
morning-brief.md, in that order; the renderers for README.md,
config/clawdbot.yaml and the automations directory exist in setup.js but
are never invoked by the entry point. -/
theorem C1_generate_setup_paths (c : Configuration) (today : String) :
    (generateSetupDocs c today).map Document.path =
      ["AGENTS.md", "HEARTBEAT.md",
       "templates/" ++ c.user.type ++ "-automation-template.json", "morning-brief.md"] := rfl

/-- C8: the pipeline is idempotent on final file content: with one
Configuration and one frozen render date, running the whole write batch of
`generateSetup` twice leaves every path with exactly the content a single
run leaves (every write is an unconditional overwrite of a deterministic
rendering). -/
theorem C8_pipeline_idempotent (c : Configuration) (today : String) (fs : FileSystem)
    (p : String) :
    readFileFrom (runWrites (generateSetupDocs c today)
        (runWrites (generateSetupDocs c today) fs)) p =
      readFileFrom (runWrites (generateSetupDocs c today) fs) p := by
  simp only [readFileFrom_runWrites]
  cases hf : findLastWrite (generateSetupDocs c today) p <;> simp [hf]

/-- C9: for every Configuration (hence for founder, engineer and every
other template-backed user type), the generated AGENTS.md content contains
the template name and the literal user-type string. -/
theorem C9_agents_mentions_role (c : Configuration) :
    strIncludes (agentsContent c) c.template.name = true ∧
    strIncludes (agentsContent c) c.user.type = true := by
  refine ⟨?_, ?_⟩
  · unfold agentsContent
    exact strIncludes_concat_of_mem _ _ (by simp)
  · unfold agentsContent
    exact strIncludes_concat_of_mem _ _ (by simp)

/-- C3: schedule classification is a substring test with inconsistent case
sensitivity: any schedule containing the lowercase token daily is daily
(an uppercase variant is not), Weekly and weekly both classify weekly,
Monthly and monthly both classify monthly; the four concrete examples of
the claim classify as stated; and an automation classified other survives
none of the three HEARTBEAT.md section filters. -/
theorem C3_schedule_classification :
    (∀ s : String, strIncludes s "daily" = true → classify s = ScheduleBucket.daily) ∧
    (classify "8:00 AM daily" = ScheduleBucket.daily ∧
     classify "8:00 AM Daily" = ScheduleBucket.other ∧
     classify "Weekly Friday 4:00 PM" = ScheduleBucket.weekly ∧
     classify "weekly retro" = ScheduleBucket.weekly ∧
     classify "Monthly Report" = ScheduleBucket.monthly ∧
     classify "monthly review" = ScheduleBucket.monthly ∧
     classify "On PR creation" = ScheduleBucket.other) ∧
    (∀ (t : Template) (p : String × AutomationSpec), p ∈ t.automations →
      classify p.2.schedule = ScheduleBucket.other →
      p ∉ heartbeatDailyEntries t ∧ p ∉ heartbeatWeeklyEntries t ∧
        p ∉ heartbeatMonthlyEntries t) := by
  refine ⟨?_, by decide, ?_⟩
  · intro s h
    simp [classify, h]
  · intro t p hp hcl
    unfold classify at hcl
    split_ifs at hcl with h1 h2 h3
    simp only [Bool.or_eq_true, not_or, Bool.not_eq_true] at h1 h2 h3
    refine ⟨?_, ?_, ?_⟩
    · simp [heartbeatDailyEntries, List.mem_filter, h1]
    · simp [heartbeatWeeklyEntries, List.mem_filter, h2.1, h2.2]
    · simp [heartbeatMonthlyEntries, List.mem_filter, h3.1, h3.2]

/-- C3 (witness): the general parts of the classification theorem applied
at concrete inputs. -/
theorem C3_witness :
    classify "standup daily" = ScheduleBucket.daily ∧
    (("code_review", otherBucketSpec) ∉ heartbeatDailyEntries otherBucketTemplate ∧
     ("code_review", otherBucketSpec) ∉ heartbeatWeeklyEntries otherBucketTemplate ∧
     ("code_review", otherBucketSpec) ∉ heartbeatMonthlyEntries otherBucketTemplate) :=
  ⟨C3_schedule_classification.1 "standup daily" (by decide),
   C3_schedule_classification.2.2 otherBucketTemplate ("code_review", otherBucketSpec)
     (by decide) (by decide)⟩

/-- C4 (counterexample): an automation whose schedule contains both the
daily and the weekly token survives BOTH section filters and its block is
rendered in both sections of HEARTBEAT.md, refuting the claim that every
automation is rendered in at most one of the three sections. -/
theorem C4_counterexample :
    ("standup", bothTokensSpec) ∈ heartbeatDailyEntries bothTokensTemplate ∧
    ("standup", bothTokensSpec) ∈ heartbeatWeeklyEntries bothTokensTemplate ∧
    strIncludes (heartbeatDailySection bothTokensTemplate) "### Standup" = true ∧
    strIncludes (heartbeatWeeklySection bothTokensTemplate) "### Standup" = true := by
  decide

/-- C4 (amended): the three HEARTBEAT.md sections each filter the
automations independently by their own substring test — membership in one
section never excludes another, so a schedule containing several tokens is
rendered in every matching section (there is no daily-first priority). -/
theorem C4_sections_independent (t : Template) (p : String × AutomationSpec)
    (hp : p ∈ t.automations) :
    (p ∈ heartbeatDailyEntries t ↔ strIncludes p.2.schedule "daily" = true) ∧
    (p ∈ heartbeatWeeklyEntries t ↔
      (strIncludes p.2.schedule "Weekly" || strIncludes p.2.schedule "weekly") = true) ∧
    (p ∈ heartbeatMonthlyEntries t ↔
      (strIncludes p.2.schedule "Monthly" || strIncludes p.2.schedule "monthly") = true) := by
  refine ⟨?_, ?_, ?_⟩ <;>
    simp [heartbeatDailyEntries, heartbeatWeeklyEntries, heartbeatMonthlyEntries,
      List.mem_filter, hp]

/-- C4 (witness): the amended characterization applied at the concrete
two-token automation. -/
theorem C4_witness :
    ("standup", bothTokensSpec) ∈ heartbeatWeeklyEntries bothTokensTemplate :=
  ((C4_sections_independent bothTokensTemplate ("standup", bothTokensSpec)
    (by decide)).2.1).mpr (by decide)

/-- C5: role branching on user.type selects exactly one extra automation
artifact — founder gets investor-update.yaml (actions collect_metrics over
revenue/user_growth/team_updates, then generate_report), engineer gets
code-review.yaml (actions analyze_code with checks
security/performance/style/tests, then generate_feedback), any other type
gets only the common morning-brief automation. -/
theorem C5_role_branching (c : Configuration) :
    (c.user.type = "founder" →
      generateAutomationsDocs c =
        [{ path := "automations/morning-brief.yaml",
           content := Json.render (morningBriefAutomationJson c) },
         { path := "automations/investor-update.yaml",
           content := Json.render investorUpdateJson }]) ∧
    (c.user.type = "engineer" →
      generateAutomationsDocs c =
        [{ path := "automations/morning-brief.yaml",
           content := Json.render (morningBriefAutomationJson c) },
         { path := "automations/code-review.yaml",
           content := Json.render codeReviewJson }]) ∧
    (c.user.type ≠ "founder" → c.user.type ≠ "engineer" →
      generateAutomationsDocs c =
        [{ path := "automations/morning-brief.yaml",
           content := Json.render (morningBriefAutomationJson c) }]) ∧
    jsonObjGet investorUpdateJson "actions" =
      some (Json.arr [
        Json.obj [("type", Json.str "collect_metrics"),
          ("sources", Json.arr [Json.str "revenue", Json.str "user_growth",
            Json.str "team_updates"])],
        Json.obj [("type", Json.str "generate_report"),
          ("template", Json.str "investor_update"),
          ("output", Json.str "weekly-investor-update.md")]]) ∧
    jsonObjGet codeReviewJson "actions" =
      some (Json.arr [
        Json.obj [("type", Json.str "analyze_code"),
          ("checks", Json.arr [Json.str "security", Json.str "performance",
            Json.str "style", Json.str "tests"])],
        Json.obj [("type", Json.str "generate_feedback"),
          ("format", Json.str "github_comment"),
          ("output", Json.str "pr-review-comments.md")]]) := by
  refine ⟨?_, ?_, ?_, rfl, rfl⟩
  · intro h
    unfold generateAutomationsDocs
    rw [h]
    rfl
  · intro h
    unfold generateAutomationsDocs
    rw [h]
    rfl
  · intro h1 h2
    unfold generateAutomationsDocs
    rw [show (c.user.type == "founder") = false from beq_eq_false_iff_ne.mpr h1,
        show (c.user.type == "engineer") = false from beq_eq_false_iff_ne.mpr h2]
    rfl

/-- C5 (witness): the three branches applied at concrete configurations of
each user type. -/
theorem C5_witness :
    generateAutomationsDocs founderConfig =
      [{ path := "automations/morning-brief.yaml",
         content := Json.render (morningBriefAutomationJson founderConfig) },
       { path := "automations/investor-update.yaml",
         content := Json.render investorUpdateJson }] ∧
    generateAutomationsDocs engineerConfig =
      [{ path := "automations/morning-brief.yaml",
         content := Json.render (morningBriefAutomationJson engineerConfig) },
       { path := "automations/code-review.yaml",
         content := Json.render codeReviewJson }] ∧
    generateAutomationsDocs analystConfig =
      [{ path := "automations/morning-brief.yaml",
         content := Json.render (morningBriefAutomationJson analystConfig) }] :=
  ⟨(C5_role_branching founderConfig).1 rfl,
   (C5_role_branching engineerConfig).2.1 rfl,
   (C5_role_branching analystConfig).2.2.1 (by decide) (by decide)⟩

/-- C7 (counterexample): a Configuration with goals, demo_scenarios and
impact_metrics all absent on which a renderer nevertheless throws — the
README renderer calls skills.join, and this Configuration carries
mapping-form skills — refuting the claim that EVERY renderer completes
without throwing on every such Configuration. -/
theorem C7_counterexample :
    mapSkillsConfig.user.goals = none ∧
    mapSkillsConfig.template.demo_scenarios = none ∧
    mapSkillsConfig.template.impact_metrics = none ∧
    generateDocumentation mapSkillsConfig =
      Except.error (JsError.typeError "config.workspace.skills.join is not a function") :=
  ⟨rfl, rfl, rfl, rfl⟩

/-- C7 (amended): when goals, demo_scenarios and impact_metrics are absent,
the renderers substitute the documented placeholders — AGENTS.md renders
its demo-scenario and impact-metrics sections empty, the morning brief
renders the literal "- General productivity tasks" line, and on
sequence-form skills the README renderer succeeds and renders the literal
"- General automation" line. (The README and clawdbot renderers throw on
mapping-form skills regardless of these optional fields; the renderers
actually invoked by generateSetup are total.) -/
theorem C7_optional_fields_defaults (c : Configuration) (today : String)
    (names : List String) (hg : c.user.goals = none)
    (hd : c.template.demo_scenarios = none) (hi : c.template.impact_metrics = none) :
    agentsDemoSection c.template = "" ∧
    agentsImpactSection c.template = "" ∧
    strIncludes (morningBriefContent c today) "- General productivity tasks" = true ∧
    (c.workspace.skills = Skills.seq names →
      generateDocumentation c =
        Except.ok { path := "README.md", content := readmeContent c names } ∧
      strIncludes (readmeContent c names) "- General automation" = true) := by
  refine ⟨?_, ?_, ?_, ?_⟩
  · unfold agentsDemoSection
    rw [hd]
  · unfold agentsImpactSection
    rw [hi]
  · have hm : morningBriefGoalsList c.user.goals = "- General productivity tasks" := by
      rw [hg]
      rfl
    unfold morningBriefContent
    rw [hm]
    exact strIncludes_concat_of_mem _ _ (by simp)
  · intro hs
    constructor
    · unfold generateDocumentation
      rw [hs]
    · have hr : readmeGoalsList c.user.goals = "- General automation" := by
        rw [hg]
        rfl
      unfold readmeContent
      rw [hr]
      exact strIncludes_concat_of_mem _ _ (by simp)

/-- C7 (witness): the amended theorem applied at a concrete Configuration
with sequence-form skills and all three optional fields absent. -/
theorem C7_witness :
    agentsDemoSection seqSkillsConfig.template = "" ∧
    strIncludes (morningBriefContent seqSkillsConfig "1/1/2025")
      "- General productivity tasks" = true ∧
    generateDocumentation seqSkillsConfig =
      Except.ok { path := "README.md",
                  content := readmeContent seqSkillsConfig ["email", "calendar"] } := by
  have h := C7_optional_fields_defaults seqSkillsConfig "1/1/2025" ["email", "calendar"]
    rfl rfl rfl
  exact ⟨h.1, h.2.2.1, (h.2.2.2 rfl).1⟩

/-- C2 (counterexample): the sequence form and the mapping form of the
skills field, naming the same two skills, do NOT show the same skill names
in the artifacts — the sequence form yields NO skill names in the AGENTS.md
skills section and in the skills_needed field of the template JSON (the
skills.entries shape test misfires on arrays), while the mapping form
yields both names; and the clawdbot.yaml renderer throws a TypeError on the
mapping form. This refutes both the normalization claim and the
no-renderer-throws claim. -/
theorem C2_counterexample :
    skillsNeeded seqSkillsConfig.template.skills = [] ∧
    skillsNeeded mapSkillsConfig.template.skills = ["email", "calendar"] ∧
    skillsNeeded seqSkillsConfig.template.skills ≠
      skillsNeeded mapSkillsConfig.template.skills ∧
    agentsSkillsSection seqSkillsConfig.template.skills = "" ∧
    agentsSkillsSection mapSkillsConfig.template.skills =
      "- **email**: Official OpenClaw skill\n- **calendar**: Official OpenClaw skill" ∧
    generateClawdbotConfig mapSkillsConfig =
      Except.error (JsError.typeError "config.workspace.skills.map is not a function") :=
  ⟨rfl, rfl, by decide, rfl, rfl, rfl⟩

/-- C2 (amended): no normalization happens at the Configuration boundary —
`generateConfiguration` copies `template.skills` verbatim into the
workspace, and every renderer branches on the shape at read time. The
shape test `skills.entries` is truthy for both shapes, so AGENTS.md and the
template JSON list exactly the entry keys for the mapping form and list no
skills for the sequence form; and `generateClawdbotConfig` (which calls
`skills.map`) succeeds exactly on the sequence form, raising a TypeError on
the mapping form. -/
theorem C2_no_normalization (a : Answers) (t : Template)
    (igs : List (String × IntegrationSpec)) (created : String) (c : Configuration)
    (names : List String) (e : List (String × SkillSpec)) :
    (generateConfiguration a t igs created).workspace.skills = t.skills ∧
    (generateConfiguration a t igs created).template.skills = t.skills ∧
    (c.workspace.skills = Skills.seq names →
      generateClawdbotConfig c ≠
        Except.error (JsError.typeError "config.workspace.skills.map is not a function") ∧
      ∃ d, generateClawdbotConfig c = Except.ok d) ∧
    (c.workspace.skills = Skills.entries e →
      generateClawdbotConfig c =
        Except.error (JsError.typeError "config.workspace.skills.map is not a function")) ∧
    skillsNeeded (Skills.entries e) = e.map Prod.fst ∧
    skillsNeeded (Skills.seq names) = [] := by
  refine ⟨rfl, rfl, ?_, ?_, rfl, rfl⟩
  · intro hs
    unfold generateClawdbotConfig
    rw [hs]
    exact ⟨by simp, ⟨_, rfl⟩⟩
  · intro hs
    unfold generateClawdbotConfig
    rw [hs]

/-- C2 (witness): the amended statement applied at the two concrete skills
shapes. -/
theorem C2_witness :
    (∃ d, generateClawdbotConfig seqSkillsConfig = Except.ok d) ∧
    generateClawdbotConfig mapSkillsConfig =
      Except.error (JsError.typeError "config.workspace.skills.map is not a function") :=
  ⟨((C2_no_normalization writerAnswers seqSkillsConfig.template []
      "2025-01-01T00:00:00.000Z" seqSkillsConfig
      ["email", "calendar"] [("email", {}), ("calendar", {})]).2.2.1 rfl).2,
   (C2_no_normalization writerAnswers mapSkillsConfig.template []
      "2025-01-01T00:00:00.000Z" mapSkillsConfig
      ["email", "calendar"] [("email", {}), ("calendar", {})]).2.2.2.1 rfl⟩

/-- C6: each recognized integration identifier expands deterministically to
its fixed entry (github to the fixed three-feature entry with no provider),
unrecognized identifiers contribute nothing, and the assembly stage has no
failure other than TemplateNotFound, which occurs exactly when the catalog
has no entry for the chosen user type. -/
theorem C6_integration_expansion (tools : List String)
    (catalog : List (String × Template)) (answers : Answers) (created : String) :
    (tools.contains "github" = true →
      lookupAssoc (configureIntegrations tools) "github" = some githubIntegration) ∧
    githubIntegration.features = ["pr_reviews", "issue_tracking", "repo_analytics"] ∧
    (∀ badTool, badTool ∉ (["gmail", "calendar", "github", "social"] : List String) →
      configureIntegrations (badTool :: tools) = configureIntegrations tools) ∧
    (∀ err, assemble catalog answers created = Except.error err →
      err = AssembleError.templateNotFound) ∧
    (lookupAssoc catalog answers.userType = none ↔
      assemble catalog answers created = Except.error AssembleError.templateNotFound) := by
  refine ⟨?_, rfl, ?_, ?_, ?_⟩
  · intro h
    unfold configureIntegrations
    rw [h]
    cases h1 : tools.contains "gmail" <;> cases h2 : tools.contains "calendar" <;>
      cases h4 : tools.contains "social" <;> simp [lookupAssoc]
  · intro badTool hbad
    simp only [List.mem_cons, not_or] at hbad
    obtain ⟨h1, h2, h3, h4, -⟩ := hbad
    unfold configureIntegrations
    rw [show ((badTool :: tools).contains "gmail") = tools.contains "gmail" by
          simp [List.contains_cons, Ne.symm h1],
        show ((badTool :: tools).contains "calendar") = tools.contains "calendar" by
          simp [List.contains_cons, Ne.symm h2],
        show ((badTool :: tools).contains "github") = tools.contains "github" by
          simp [List.contains_cons, Ne.symm h3],
        show ((badTool :: tools).contains "social") = tools.contains "social" by
          simp [List.contains_cons, Ne.symm h4]]
  · intro err herr
    cases err
    rfl
  · unfold assemble loadTemplate
    cases hl : lookupAssoc catalog answers.userType <;> simp [hl]

/-- C6 (witness): the expansion and error behavior at concrete inputs. -/
theorem C6_witness :
    lookupAssoc (configureIntegrations ["gmail", "github"]) "github" =
      some githubIntegration ∧
    configureIntegrations ("slack" :: ["github"]) = configureIntegrations ["github"] ∧
    assemble [] plainFounderAnswers "2025-01-01" =
      Except.error AssembleError.templateNotFound :=
  ⟨(C6_integration_expansion ["gmail", "github"] [] plainFounderAnswers "2025-01-01").1
      (by decide),
   (C6_integration_expansion ["github"] [] plainFounderAnswers "2025-01-01").2.2.1
      "slack" (by decide),
   (C6_integration_expansion [] [] plainFounderAnswers "2025-01-01").2.2.2.2.mp rfl⟩

/-- C10: the mapping returned by configureIntegrations has keys only among
email/calendar/github/social; each of the four entries is present exactly
when its fixed trigger identifier is among the selected tools (the email
entry is triggered by the identifier gmail) and always carries its fixed
constant spec; the identifier email itself is not recognized and alone
produces no entry at all. -/
theorem C10_configure_integrations (tools : List String) :
    (lookupAssoc (configureIntegrations tools) "email" =
      if tools.contains "gmail" then some emailIntegration else none) ∧
    (lookupAssoc (configureIntegrations tools) "calendar" =
      if tools.contains "calendar" then some calendarIntegration else none) ∧
    (lookupAssoc (configureIntegrations tools) "github" =
      if tools.contains "github" then some githubIntegration else none) ∧
    (lookupAssoc (configureIntegrations tools) "social" =
      if tools.contains "social" then some socialIntegration else none) ∧
    (∀ k, k ∉ (["email", "calendar", "github", "social"] : List String) →
      lookupAssoc (configureIntegrations tools) k = none) ∧
    configureIntegrations ["email"] = [] := by
  refine ⟨?_, ?_, ?_, ?_, ?_, rfl⟩
  · unfold configureIntegrations
    cases h1 : tools.contains "gmail" <;> cases h2 : tools.contains "calendar" <;>
      cases h3 : tools.contains "github" <;> cases h4 : tools.contains "social" <;>
      simp [lookupAssoc]
  · unfold configureIntegrations
    cases h1 : tools.contains "gmail" <;> cases h2 : tools.contains "calendar" <;>
      cases h3 : tools.contains "github" <;> cases h4 : tools.contains "social" <;>
      simp [lookupAssoc]
  · unfold configureIntegrations
    cases h1 : tools.contains "gmail" <;> cases h2 : tools.contains "calendar" <;>
      cases h3 : tools.contains "github" <;> cases h4 : tools.contains "social" <;>
      simp [lookupAssoc]
  · unfold configureIntegrations
    cases h1 : tools.contains "gmail" <;> cases h2 : tools.contains "calendar" <;>
      cases h3 : tools.contains "github" <;> cases h4 : tools.contains "social" <;>
      simp [lookupAssoc]
  · intro k hk
    simp only [List.mem_cons, not_or] at hk
    obtain ⟨h1, h2, h3, h4, -⟩ := hk
    unfold configureIntegrations
    cases g1 : tools.contains "gmail" <;> cases g2 : tools.contains "calendar" <;>
      cases g3 : tools.contains "github" <;> cases g4 : tools.contains "social" <;>
      simp [lookupAssoc, Ne.symm h1, Ne.symm h2, Ne.symm h3, Ne.symm h4]

/-- C10 (witness): the characterization applied at concrete tool lists. -/
theorem C10_witness :
    lookupAssoc (configureIntegrations ["email", "gmail"]) "email" =
      some emailIntegration ∧
    lookupAssoc (configureIntegrations ["gmail"]) "zzz" = none := by
  refine ⟨?_, ?_⟩
  · have h := (C10_configure_integrations ["email", "gmail"]).1
    simpa using h
  · exact (C10_configure_integrations ["gmail"]).2.2.2.2.1 "zzz" (by decide)
